import Mathlib

/-!
Verification of the mental-command smoothing/forwarding pipeline and the
profile lifecycle controller of `live_advance.py`.

The Python source is shallowly embedded: object attributes become fields of
explicit state records, callbacks become pure functions from inputs and the
prior state to the new state (plus the commands issued towards the external
Cortex adapter), and Python exceptions become an explicit error component.
Because Python mutates `self` in place, a handler that raises midway leaves
its earlier mutations visible; we therefore model a handler as returning the
(possibly partially mutated) state together with `Option PipelineError`
rather than an all-or-nothing `Except`.
-/

namespace LiveAdvance

/-- The fixed target vocabulary `self.target_words` from `__init__`:
`["drop", "right", "left", "lift", "neutral"]`. -/
def target_words : List String := ["drop", "right", "left", "lift", "neutral"]

/-- One classified sample, the payload of a `new_com_data` event, e.g.
`{'action': 'neutral', 'power': 0.0, 'time': 1590736942.8479}`.  The handler
reads only `action` (via `data.get('action', '')`, so a missing key yields
`''`); `power` and `time` are carried but unused by the handler, which gates
on the processing-time clock `time.time()` instead. -/
structure Sample where
  action : Option String
  power : Int
  time : Int
  deriving Repr, DecidableEq

/-- Errors a pipeline handler can raise: a failing `open`/`write` in
`guardar_datos_en_csv`, or a failing `connect`/`sendall` in
`envioporsocket`.  Neither call site has a `try`/`except`. -/
inductive PipelineError where
  | logError
  | forwardError
  deriving Repr, DecidableEq

/-- The mutable pipeline state held on the `LiveAdvance` object:
`command_history` (the `deque(maxlen=40)`), `last_print_time`, plus the two
observable sinks — the lines appended to the log file by
`guardar_datos_en_csv` and the payloads transmitted by `envioporsocket`. -/
structure PipelineState where
  command_history : List String
  last_print_time : Int
  log : List String
  sent : List String
  deriving Repr, DecidableEq

/-- Appending to Python's bounded `deque`: once the deque is full, the append
itself silently evicts from the opposite (front) end. -/
def dequeAppend (maxlen : Nat) (xs : List String) (x : String) : List String :=
  let ys := xs ++ [x]
  if maxlen < ys.length then ys.drop (ys.length - maxlen) else ys

/-- Python's `guardar_datos_en_csv`: appends the decision label plus a newline
to the file.  There is no exception handling, so on an I/O failure
(`ok = false`) the exception propagates to the caller. -/
def guardar_datos_en_csv (ok : Bool) (datos : String) (s : PipelineState) :
    PipelineState × Option PipelineError :=
  if ok then ({ s with log := s.log ++ [datos ++ "\n"] }, none)
  else (s, some .logError)

/-- Python's `envioporsocket`: opens a fresh TCP connection and sends the
payload.  `connect`/`sendall` failures raise out of the function (the `with`
block closes the socket but catches nothing). -/
def envioporsocket (ok : Bool) (comando : String) (s : PipelineState) :
    PipelineState × Option PipelineError :=
  if ok then ({ s with sent := s.sent ++ [comando] }, none)
  else (s, some .forwardError)

/-- Python's `max(counts, key=counts.get)` over the insertion-ordered dict
`{word: history.count(word) for word in target_words}`: scans the pairs in
vocabulary order keeping the current best unless a strictly larger count
appears, so the first label attaining the maximum wins. -/
def argmaxFirst : List (String × Nat) → String × Nat
  | [] => ("", 0)
  | c :: cs => cs.foldl (fun best p => if best.2 < p.2 then p else best) c

/-- The vote tally at a gate check: each target word paired with its count
in the current window. -/
def voteCounts (history : List String) : List (String × Nat) :=
  target_words.map fun w => (w, history.count w)

/-- The label selected by the vote (`majority_word`). -/
def voteSelect (history : List String) : String :=
  (argmaxFirst (voteCounts history)).1

/-- The count of the selected label (`majority_count`). -/
def voteMax (history : List String) : Nat :=
  (argmaxFirst (voteCounts history)).2

/-- ASCII lowercasing of one character, as Python's `str.lower()` acts on
the ASCII action labels this pipeline sees. -/
def lowerChar (c : Char) : Char :=
  if 'A' ≤ c ∧ c ≤ 'Z' then Char.ofNat (c.toNat + 32) else c

/-- Python's `str.lower()` on the label strings of this pipeline (restricted
to ASCII, which covers the vocabulary and the vendor's action labels). -/
def lowerString (s : String) : String :=
  String.mk (s.data.map lowerChar)

/-- Python's `on_new_com_data`: the smoothing/forwarding handler.  `logOk` and
`forwardOk` say whether the log append and socket send would succeed;
`now` is `time.time()` at processing time.  A raise aborts the rest of the
handler but earlier in-place mutations of `self` persist, hence the
state-plus-error return. -/
def on_new_com_data (logOk forwardOk : Bool) (data : Option Sample)
    (now : Int) (s : PipelineState) : PipelineState × Option PipelineError :=
  match data with
  | none => (s, none)
  | some d =>
    let command := lowerString (d.action.getD "")
    let s1 := { s with command_history := dequeAppend 40 s.command_history command }
    if 8 ≤ now - s1.last_print_time then
      let majority_word := voteSelect s1.command_history
      let majority_count := voteMax s1.command_history
      if 20 ≤ majority_count then
        match guardar_datos_en_csv logOk majority_word s1 with
        | (s2, some e) => (s2, some e)
        | (s2, none) =>
          match envioporsocket forwardOk majority_word s2 with
          | (s3, some e) => (s3, some e)
          | (s3, none) => ({ s3 with last_print_time := now }, none)
      else (s1, none)
    else (s1, none)

/-- One pipeline step in the nominal (no I/O failure) run. -/
def runStep (s : PipelineState) (e : Option Sample × Int) : PipelineState :=
  (on_new_com_data true true e.1 e.2 s).1

/-- The nominal run over a sequence of `(payload, arrival time)` events. -/
def runPipeline (s : PipelineState) (events : List (Option Sample × Int)) :
    PipelineState :=
  events.foldl runStep s

/-- The times at which the nominal run forwards a decision: an event's time
is recorded exactly when its step grows the `sent` sink. -/
def runEmissions (s : PipelineState) : List (Option Sample × Int) → List Int
  | [] => []
  | e :: es =>
    let s' := runStep s e
    if s.sent.length < s'.sent.length then e.2 :: runEmissions s' es
    else runEmissions s' es

/-- Successive timestamps each at least 8 units after the previous anchor. -/
def gapOK : Int → List Int → Prop
  | _, [] => True
  | l, t :: ts => 8 ≤ t - l ∧ gapOK t ts

instance : ∀ l ts, Decidable (gapOK l ts)
  | _, [] => .isTrue trivial
  | l, t :: ts =>
    have : Decidable (gapOK t ts) := instDecidableGapOK t ts
    inferInstanceAs (Decidable (_ ∧ _))

/-- The window contents right after `on_new_com_data` appends the normalized
label of sample `d` to state `s` (derived abbreviation for the statements). -/
def newHistory (s : PipelineState) (d : Sample) : List String :=
  dequeAppend 40 s.command_history (lowerString (d.action.getD ""))

/-- The Command History Window reached by appending `ls` (in order) into an
initially empty window, one `on_new_com_data` append at a time. -/
def windowAfter (ls : List String) : List String :=
  ls.foldl (dequeAppend 40) []

/-- The commands the lifecycle controller issues towards the Cortex
adapter (only those the verified handlers can produce). -/
inductive Command where
  | getCurrentProfile
  | setupProfile (name : String) (mode : String)
  | setSensitivity (name : String) (values : List Int)
  | setWantedProfile (name : String)
  | setWantedHeadset (id : String)
  | openSession
  deriving Repr, DecidableEq

/-- Python's `on_query_profile_done`: with the catalog from the event payload,
takes the load path (`self.c.get_current_profile()`) when the wanted name
is in the catalog, else issues `setup_profile(name, 'create')`. -/
def on_query_profile_done (profile_name : String)
    (profile_lists : List String) : List Command :=
  if profile_name ∈ profile_lists then [.getCurrentProfile]
  else [.setupProfile profile_name "create"]

/-- The payload of a `mc_action_sensitivity_done` event: a Python list of
numbers (a sensitivity *read* result) or anything else (the acknowledgement
of a *write*). -/
inductive SensPayload where
  | listData (values : List Int)
  | other
  deriving Repr, DecidableEq

/-- Python's `on_mc_action_sensitivity_done`: dispatches on whether the payload
is a Python list;
a read result triggers `set_sensitivity(profile, [5,5,7,7])`, anything else
triggers `save_profile(profile)` i.e. `setup_profile(profile, 'save')`. -/
def on_mc_action_sensitivity_done (profile_name : String)
    (data : SensPayload) : List Command :=
  match data with
  | .listData _ => [.setSensitivity profile_name [5, 5, 7, 7]]
  | .other => [.setupProfile profile_name "save"]

/-- The local failure `start` can raise: the `ValueError` for an empty
profile name. -/
inductive StartError where
  | invalidArgument (msg : String)
  deriving Repr, DecidableEq

/-- What a successful `start` leaves behind: the recorded
`self.profile_name` and the commands issued towards the adapter, in
order. -/
structure StartResult where
  recorded_profile : Option String
  commands : List Command
  deriving Repr, DecidableEq

/-- Python's `start`: raises `ValueError` on an empty
name before anything is recorded or sent; otherwise records the profile
name, sets the wanted profile (and the wanted headset when one was given)
and opens the session. -/
def start (profile_name : String) (headsetId : String) :
    Except StartError StartResult :=
  if profile_name = "" then
    .error (.invalidArgument "Empty profile_name. The profile_name cannot be empty.")
  else
    .ok ⟨some profile_name,
      [.setWantedProfile profile_name]
        ++ (if headsetId = "" then [] else [.setWantedHeadset headsetId])
        ++ [.openSession]⟩

lemma voteSelect_mem (h : List String) : voteSelect h ∈ target_words := by
  simp only [voteSelect, voteCounts, target_words, List.map, argmaxFirst, List.foldl]
  split_ifs <;> simp

lemma voteMax_eq_count (h : List String) :
    voteMax h = h.count (voteSelect h) := by
  simp only [voteSelect, voteMax, voteCounts, target_words, List.map, argmaxFirst, List.foldl]
  split_ifs <;> rfl

lemma count_le_voteMax (h : List String) (w : String) (hw : w ∈ target_words) :
    h.count w ≤ voteMax h := by
  simp only [target_words, List.mem_cons, List.not_mem_nil, or_false] at hw
  simp only [voteMax, voteCounts, target_words, List.map, argmaxFirst, List.foldl]
  rcases hw with rfl | rfl | rfl | rfl | rfl <;> split_ifs <;> omega

lemma voteSelect_first (h : List String) (w : String)
    (hw : w ∈ target_words.take (target_words.indexOf (voteSelect h))) :
    h.count w < voteMax h := by
  simp only [voteSelect, voteMax, voteCounts, target_words, List.map, argmaxFirst,
    List.foldl] at hw ⊢
  split_ifs at hw ⊢ <;>
    simp_all [List.indexOf, List.findIdx, List.findIdx.go] <;>
    rcases hw with rfl | rfl | rfl | rfl <;> omega

/-- C4: at every gate-time vote the selected label lies in the fixed
vocabulary, its count is the maximum count over the vocabulary, and every
label occurring strictly earlier in the enumeration order has a strictly
smaller count (so on ties the first label reaching the maximum wins).  The
selection `voteSelect` is a pure function of the window contents, hence
identical across runs with identical input. -/
theorem vote_first_max_tiebreak (history : List String) :
    voteSelect history ∈ target_words ∧
    voteMax history = history.count (voteSelect history) ∧
    (∀ w ∈ target_words, history.count w ≤ history.count (voteSelect history)) ∧
    (∀ w ∈ target_words.take (target_words.indexOf (voteSelect history)),
      history.count w < history.count (voteSelect history)) := by
  refine ⟨voteSelect_mem history, voteMax_eq_count history, ?_, ?_⟩
  · intro w hw
    rw [← voteMax_eq_count]
    exact count_le_voteMax history w hw
  · intro w hw
    rw [← voteMax_eq_count]
    exact voteSelect_first history w hw

theorem vote_first_max_tiebreak_witness :
    voteSelect (List.replicate 20 "left" ++ List.replicate 20 "neutral") = "left" ∧
    (List.replicate 20 "left" ++ List.replicate 20 "neutral").count "neutral" ≤
      (List.replicate 20 "left" ++ List.replicate 20 "neutral").count
        (voteSelect (List.replicate 20 "left" ++ List.replicate 20 "neutral")) :=
  ⟨by decide,
   (vote_first_max_tiebreak (List.replicate 20 "left" ++ List.replicate 20 "neutral")).2.2.1
     "neutral" (by decide)⟩

/-- C1: when a sample is processed at a gate check, a maximum vocabulary
count of at least 20 yields a qualifying decision (the selected label is
appended to the log and forwarded, and the gate advances), while a maximum
count of at most 19 yields no decision: nothing is logged or forwarded and
`last_print_time` is unchanged. -/
theorem gate_vote_threshold_decision (d : Sample) (now : Int) (s : PipelineState)
    (hgate : 8 ≤ now - s.last_print_time) :
    ((∃ w ∈ target_words, 20 ≤ (newHistory s d).count w) →
      on_new_com_data true true (some d) now s =
        ({ command_history := newHistory s d,
           last_print_time := now,
           log := s.log ++ [voteSelect (newHistory s d) ++ "\n"],
           sent := s.sent ++ [voteSelect (newHistory s d)] }, none)) ∧
    ((∀ w ∈ target_words, (newHistory s d).count w ≤ 19) →
      on_new_com_data true true (some d) now s =
        ({ s with command_history := newHistory s d }, none)) := by
  constructor
  · rintro ⟨w, hw, hcnt⟩
    have hmax : 20 ≤ voteMax (newHistory s d) :=
      le_trans hcnt (count_le_voteMax _ w hw)
    simp only [on_new_com_data, newHistory, guardar_datos_en_csv, envioporsocket] at *
    rw [if_pos hgate, if_pos hmax]
    simp
  · intro hsmall
    have hmax : voteMax (newHistory s d) ≤ 19 := by
      rw [voteMax_eq_count]
      exact hsmall _ (voteSelect_mem _)
    simp only [on_new_com_data, newHistory] at *
    rw [if_pos hgate, if_neg (by omega)]

theorem gate_vote_threshold_decision_witness :
    (8 : Int) ≤ 9 - 0 ∧
    on_new_com_data true true (some ⟨some "DROP", 1, 9⟩) 9
        ⟨List.replicate 39 "drop", 0, [], []⟩ =
      (⟨newHistory ⟨List.replicate 39 "drop", 0, [], []⟩ ⟨some "DROP", 1, 9⟩, 9,
        [voteSelect (newHistory ⟨List.replicate 39 "drop", 0, [], []⟩ ⟨some "DROP", 1, 9⟩) ++ "\n"],
        [voteSelect (newHistory ⟨List.replicate 39 "drop", 0, [], []⟩ ⟨some "DROP", 1, 9⟩)]⟩,
       none) :=
  ⟨by decide,
   (gate_vote_threshold_decision ⟨some "DROP", 1, 9⟩ 9
      ⟨List.replicate 39 "drop", 0, [], []⟩ (by decide)).1
     ⟨"drop", by decide, by decide⟩⟩

lemma runStep_growth (s : PipelineState) (e : Option Sample × Int) :
    (s.sent.length < (runStep s e).sent.length →
        (runStep s e).last_print_time = e.2 ∧ 8 ≤ e.2 - s.last_print_time) ∧
    (¬ s.sent.length < (runStep s e).sent.length →
        (runStep s e).last_print_time = s.last_print_time) := by
  obtain ⟨data, t⟩ := e
  cases data with
  | none => simp [runStep, on_new_com_data]
  | some d =>
    simp only [runStep, on_new_com_data, guardar_datos_en_csv, envioporsocket]
    split_ifs <;> simp_all

lemma gapOK_runEmissions (events : List (Option Sample × Int)) (s : PipelineState) :
    gapOK s.last_print_time (runEmissions s events) := by
  induction events generalizing s with
  | nil => trivial
  | cons e es ih =>
    simp only [runEmissions]
    by_cases hg : s.sent.length < (runStep s e).sent.length
    · rw [if_pos hg]
      refine ⟨((runStep_growth s e).1 hg).2, ?_⟩
      have h2 := ih (runStep s e)
      rwa [((runStep_growth s e).1 hg).1] at h2
    · rw [if_neg hg]
      have h2 := ih (runStep s e)
      rwa [(runStep_growth s e).2 hg] at h2

lemma gapOK_lb {l : Int} {ts : List Int} (h : gapOK l ts) : ∀ t ∈ ts, 8 ≤ t - l := by
  induction ts generalizing l with
  | nil => simp
  | cons t ts ih =>
    obtain ⟨h1, h2⟩ := h
    intro u hu
    rcases List.mem_cons.1 hu with rfl | hu
    · exact h1
    · have h3 := ih h2 u hu
      omega

lemma gapOK_pairwise {l : Int} {ts : List Int} (h : gapOK l ts) :
    ts.Pairwise (fun a b => 8 ≤ b - a) := by
  induction ts generalizing l with
  | nil => exact List.Pairwise.nil
  | cons t ts ih =>
    obtain ⟨h1, h2⟩ := h
    exact List.Pairwise.cons (fun u hu => gapOK_lb h2 u hu) (ih h2)

/-- C2: over any event sequence, consecutive forwarded decisions are at
least 8 time units apart (the first one at least 8 units after the initial
`last_print_time`), and hence any two forwarded decisions are at least 8
units apart: at most one qualifying decision is forwarded within any
interval shorter than the gate, regardless of the input sample rate. -/
theorem at_most_one_emission_per_gate_interval (s : PipelineState)
    (events : List (Option Sample × Int)) :
    gapOK s.last_print_time (runEmissions s events) ∧
    (runEmissions s events).Pairwise (fun tEarlier tLater => 8 ≤ tLater - tEarlier) :=
  ⟨gapOK_runEmissions events s, gapOK_pairwise (gapOK_runEmissions events s)⟩

lemma windowAfter_concat (ls : List String) (x : String) :
    windowAfter (ls ++ [x]) = dequeAppend 40 (windowAfter ls) x := by
  simp [windowAfter, List.foldl_append]

lemma windowAfter_eq_drop (ls : List String) :
    windowAfter ls = ls.drop (ls.length - 40) := by
  induction ls using List.reverseRecOn with
  | nil => rfl
  | append_singleton ls x ih =>
    rw [windowAfter_concat, ih]
    simp only [dequeAppend, List.length_append, List.length_cons, List.length_nil,
      List.length_drop]
    by_cases hl : ls.length < 40
    · rw [if_neg (by omega)]
      have h0 : ls.length - 40 = 0 := by omega
      have h1 : ls.length + (0 + 1) - 40 = 0 := by omega
      rw [h0, h1, List.drop_zero, List.drop_zero]
    · rw [if_pos (by omega)]
      have h2 : ls.length - (ls.length - 40) + (0 + 1) - 40 = 1 := by omega
      have h3 : ls.length + (0 + 1) - 40 = ls.length - 39 := by omega
      rw [h2, h3,
        List.drop_append_of_le_length (by simp only [List.length_drop]; omega),
        List.drop_append_of_le_length (by omega),
        List.drop_drop]
      congr 2
      omega

/-- C3: the Command History Window never exceeds 40 labels, and once at
least 41 labels have been appended the window is exactly the last 40
appended labels — everything older (in particular the label appended 41
appends earlier) has been evicted, so a vote tally over the window counts
only the last 40 labels. -/
theorem window_capacity_and_eviction (ls : List String) :
    (windowAfter ls).length ≤ 40 ∧
    (41 ≤ ls.length →
      windowAfter ls = ls.drop (ls.length - 40) ∧
      ∀ w, (windowAfter ls).count w = (ls.drop (ls.length - 40)).count w) := by
  have h := windowAfter_eq_drop ls
  refine ⟨?_, fun _ => ⟨h, fun w => by rw [h]⟩⟩
  rw [h, List.length_drop]
  omega

theorem window_capacity_and_eviction_witness :
    41 ≤ ("x" :: List.replicate 40 "left").length ∧
    windowAfter ("x" :: List.replicate 40 "left") =
      ("x" :: List.replicate 40 "left").drop
        (("x" :: List.replicate 40 "left").length - 40) :=
  ⟨by decide,
   ((window_capacity_and_eviction ("x" :: List.replicate 40 "left")).2 (by decide)).1⟩

/-- C5 counterexample: a qualifying decision whose socket forward fails.
With a window that reaches 20 occurrences of "left" at a gate check at
time 10, a failing `envioporsocket` leaves `last_print_time` at 0 (the
gate does not advance, contrary to the claim), and the very next sample at
time 12 — within the same 8-unit window — forwards the decision. -/
theorem forward_failure_gate_counterexample :
    (on_new_com_data true false (some ⟨some "left", 0, 10⟩) 10
        ⟨List.replicate 39 "left", 0, [], []⟩).1.last_print_time = 0 ∧
    (on_new_com_data true false (some ⟨some "left", 0, 10⟩) 10
        ⟨List.replicate 39 "left", 0, [], []⟩).2 = some PipelineError.forwardError ∧
    (on_new_com_data true true (some ⟨some "left", 0, 12⟩) 12
        (on_new_com_data true false (some ⟨some "left", 0, 10⟩) 10
          ⟨List.replicate 39 "left", 0, [], []⟩).1).1.sent = ["left"] := by
  refine ⟨?_, ?_, ?_⟩ <;> decide

/-- C5 amended: on a qualifying decision whose socket forward fails, the
exception propagates out of the handler after the log append: the history
append and the log line persist, but `last_print_time` is NOT advanced and
nothing is recorded as sent, so the gate does not advance and a second
forward attempt can occur within the same 8-unit window. -/
theorem forward_failure_no_gate_advance (d : Sample) (now : Int)
    (s : PipelineState)
    (hgate : 8 ≤ now - s.last_print_time)
    (hq : 20 ≤ voteMax (newHistory s d)) :
    on_new_com_data true false (some d) now s =
      ({ s with command_history := newHistory s d,
                log := s.log ++ [voteSelect (newHistory s d) ++ "\n"] },
       some PipelineError.forwardError) := by
  simp only [on_new_com_data, newHistory, guardar_datos_en_csv, envioporsocket] at *
  rw [if_pos hgate, if_pos hq]
  simp

theorem forward_failure_no_gate_advance_witness :
    (8 : Int) ≤ 20 - 5 ∧
    20 ≤ voteMax (newHistory ⟨List.replicate 39 "right", 5, [], []⟩
      ⟨some "right", 0, 20⟩) ∧
    on_new_com_data true false (some ⟨some "right", 0, 20⟩) 20
        ⟨List.replicate 39 "right", 5, [], []⟩ =
      (⟨newHistory ⟨List.replicate 39 "right", 5, [], []⟩ ⟨some "right", 0, 20⟩, 5,
        [voteSelect (newHistory ⟨List.replicate 39 "right", 5, [], []⟩
          ⟨some "right", 0, 20⟩) ++ "\n"], []⟩,
       some PipelineError.forwardError) :=
  ⟨by decide, by decide,
   forward_failure_no_gate_advance ⟨some "right", 0, 20⟩ 20
     ⟨List.replicate 39 "right", 5, [], []⟩ (by decide) (by decide)⟩

/-- C6 counterexample: a qualifying decision whose log append fails.  With
a window reaching 40 occurrences of "lift" at a gate check at time 9, a
failing `guardar_datos_en_csv` aborts the handler: nothing is forwarded
(`sent` stays empty) and `last_print_time` stays 0 — contrary to the claim
that the forward and the gate advance still occur. -/
theorem log_failure_counterexample :
    on_new_com_data false true (some ⟨some "lift", 0, 9⟩) 9
        ⟨List.replicate 39 "lift", 0, [], []⟩ =
      (⟨List.replicate 40 "lift", 0, [], []⟩, some PipelineError.logError) := by
  decide

/-- C6 amended: on a qualifying decision whose log append fails, the
exception propagates out of the handler before the socket forward: only
the history append persists; the forward is not attempted and
`last_print_time` is not advanced. -/
theorem log_failure_aborts_handler (forwardOk : Bool) (d : Sample)
    (now : Int) (s : PipelineState)
    (hgate : 8 ≤ now - s.last_print_time)
    (hq : 20 ≤ voteMax (newHistory s d)) :
    on_new_com_data false forwardOk (some d) now s =
      ({ s with command_history := newHistory s d },
       some PipelineError.logError) := by
  simp only [on_new_com_data, newHistory, guardar_datos_en_csv] at *
  rw [if_pos hgate, if_pos hq]
  simp

theorem log_failure_aborts_handler_witness :
    (8 : Int) ≤ 8 - 0 ∧
    20 ≤ voteMax (newHistory ⟨List.replicate 39 "lift", 0, [], []⟩
      ⟨some "lift", 0, 8⟩) ∧
    on_new_com_data false true (some ⟨some "lift", 0, 8⟩) 8
        ⟨List.replicate 39 "lift", 0, [], []⟩ =
      (⟨newHistory ⟨List.replicate 39 "lift", 0, [], []⟩ ⟨some "lift", 0, 8⟩,
        0, [], []⟩, some PipelineError.logError) :=
  ⟨by decide, by decide,
   log_failure_aborts_handler true ⟨some "lift", 0, 8⟩ 8
     ⟨List.replicate 39 "lift", 0, [], []⟩ (by decide) (by decide)⟩

/-- C7: on every catalog event the controller issues exactly one command,
which is the load path (get current profile) precisely when the wanted
profile name is in the received catalog, and a create request precisely
when it is not — never both. -/
theorem catalog_load_xor_create (profile_name : String)
    (profile_lists : List String) :
    (on_query_profile_done profile_name profile_lists).length = 1 ∧
    (profile_name ∈ profile_lists ↔
      on_query_profile_done profile_name profile_lists =
        [Command.getCurrentProfile]) ∧
    (profile_name ∉ profile_lists ↔
      on_query_profile_done profile_name profile_lists =
        [Command.setupProfile profile_name "create"]) := by
  by_cases hm : profile_name ∈ profile_lists <;>
    simp [on_query_profile_done, hm]

theorem catalog_load_xor_create_witness :
    on_query_profile_done "Dario2023P2" ["Dario2023P2", "other"] =
      [Command.getCurrentProfile] ∧
    on_query_profile_done "Dario2023P2" ["other"] =
      [Command.setupProfile "Dario2023P2" "create"] :=
  ⟨(catalog_load_xor_create "Dario2023P2" ["Dario2023P2", "other"]).2.1.mp
     (by decide),
   (catalog_load_xor_create "Dario2023P2" ["other"]).2.2.mp (by decide)⟩

/-- C8: on every sensitivity event the controller issues exactly one
command: a read-shaped payload (a Python list of numbers) triggers the
set-sensitivity command with the configured target vector [5, 5, 7, 7],
and any other payload (a write acknowledgement) triggers a save-profile
request. -/
theorem sensitivity_dispatch_exactly_one (profile_name : String)
    (data : SensPayload) :
    (on_mc_action_sensitivity_done profile_name data).length = 1 ∧
    ((∃ vs, data = SensPayload.listData vs) ↔
      on_mc_action_sensitivity_done profile_name data =
        [Command.setSensitivity profile_name [5, 5, 7, 7]]) ∧
    (data = SensPayload.other ↔
      on_mc_action_sensitivity_done profile_name data =
        [Command.setupProfile profile_name "save"]) := by
  cases data <;> simp [on_mc_action_sensitivity_done]

theorem sensitivity_dispatch_exactly_one_witness :
    on_mc_action_sensitivity_done "Dario2023P2"
        (SensPayload.listData [7, 7, 3, 6]) =
      [Command.setSensitivity "Dario2023P2" [5, 5, 7, 7]] ∧
    on_mc_action_sensitivity_done "Dario2023P2" SensPayload.other =
      [Command.setupProfile "Dario2023P2" "save"] :=
  ⟨(sensitivity_dispatch_exactly_one "Dario2023P2"
      (SensPayload.listData [7, 7, 3, 6])).2.1.mp ⟨[7, 7, 3, 6], rfl⟩,
   (sensitivity_dispatch_exactly_one "Dario2023P2" SensPayload.other).2.2.mp rfl⟩

/-- C9: a call to `start` with an empty profile name fails immediately and
locally with the InvalidArgument-kind error — no command is issued towards
the adapter and no profile name is recorded; with a non-empty name no such
validation error is raised: the session context is recorded and an open
request is issued. -/
theorem start_empty_name_validation (profile_name headsetId : String) :
    (profile_name = "" →
      start profile_name headsetId =
        Except.error (StartError.invalidArgument
          "Empty profile_name. The profile_name cannot be empty.")) ∧
    (profile_name ≠ "" → ∃ r, start profile_name headsetId = Except.ok r ∧
      r.recorded_profile = some profile_name ∧
      Command.openSession ∈ r.commands) := by
  constructor
  · intro he
    simp [start, he]
  · intro hne
    unfold start
    rw [if_neg hne]
    refine ⟨_, rfl, rfl, ?_⟩
    simp

theorem start_empty_name_validation_witness :
    start "" "" = Except.error (StartError.invalidArgument
      "Empty profile_name. The profile_name cannot be empty.") ∧
    ∃ r, start "Dario2023P2" "" = Except.ok r ∧
      r.recorded_profile = some "Dario2023P2" ∧
      Command.openSession ∈ r.commands :=
  ⟨(start_empty_name_validation "" "").1 rfl,
   (start_empty_name_validation "Dario2023P2" "").2 (by decide)⟩

/-- C10: a sample event with a missing or empty (falsy) payload is a
no-op: the handler returns with the window, `last_print_time`, log and
sent sinks all unchanged and no error, so no append, gate check or vote
happens. -/
theorem falsy_sample_noop (logOk forwardOk : Bool) (now : Int)
    (s : PipelineState) :
    on_new_com_data logOk forwardOk none now s = (s, none) :=
  rfl

end LiveAdvance
